import Mathlib

/-!
# IP rotation service (`main.go`)

A shallow embedding of `changeIP` and `changeIPHandler`.

The Lightsail SDK client and the clock are external to the program, so they are
taken as a parameter: a record of the six SDK operations the program calls plus
the effect of elapsed time, all acting on an abstract provider state `σ`.
Go pointers are `Option` values (`none` is `nil`), a Go `error` is its message
(`none` is `nil`), and a nil-pointer dereference is the outcome `panicked`.
Every SDK call and every `time.Sleep` is appended to a trace so that the order
and number of calls can be stated.  `log.Printf` lines are not modelled.
-/

namespace IPSwitcher

/-! ## Data model -/

/-- InstanceConfig of `main.go`: one configured record. -/
structure InstanceConfig where
  Name : String
  InstanceName : String
  StaticIPName : String
deriving DecidableEq, Repr

/-- Config of `main.go`: the ordered list of records. -/
structure Config where
  Instances : List InstanceConfig
deriving Repr

/-- IPChangeResult of `main.go`: the body of a successful answer. -/
structure IPChangeResult where
  InstanceName : String
  OldIP : String
  NewIP : String
  Message : String
  Success : Bool
deriving DecidableEq, Repr

/-- A Go `error`, represented by its message; `nil` is `none` of `Option Error`. -/
abbrev Error := String

/-- The fields of `lightsail.Instance` that the program reads (both are pointers). -/
structure Instance where
  PublicIpAddress : Option String
  IsStaticIp : Option Bool
deriving DecidableEq, Repr

/-- The `lightsail.GetInstanceOutput` record: a pointer to an `Instance`. -/
structure GetInstanceOutput where
  Instance : Option Instance
deriving DecidableEq, Repr

/-- One externally visible step: an SDK call with its arguments, or a sleep. -/
inductive Call where
  | GetInstance (instanceName : String)
  | GetStaticIp (staticIpName : String)
  | DetachStaticIp (staticIpName : String)
  | ReleaseStaticIp (staticIpName : String)
  | AllocateStaticIp (staticIpName : String)
  | AttachStaticIp (staticIpName instanceName : String)
  | Sleep (seconds : Nat)
deriving DecidableEq, Repr

/-- The external collaborators of `changeIP`: the six operations of the SDK client
`*lightsail.Lightsail` that the program calls, each returning its Go result pair and
the next provider state, and the effect of `time.Sleep` on the provider state.
For the calls whose output the program discards only the error is kept. -/
structure Lightsail (σ : Type) where
  GetInstance : String → σ → (Option GetInstanceOutput × Option Error) × σ
  GetStaticIp : String → σ → Option Error × σ
  DetachStaticIp : String → σ → Option Error × σ
  ReleaseStaticIp : String → σ → Option Error × σ
  AllocateStaticIp : String → σ → Option Error × σ
  AttachStaticIp : String → String → σ → Option Error × σ
  Sleep : Nat → σ → σ

/-- The world a run threads through: provider state and the trace of steps so far. -/
structure World (σ : Type) where
  state : σ
  trace : List Call

/-- How a Go function ends: it returns a value, or a run-time panic unwinds it. -/
inductive Outcome (σ : Type) (α : Type) where
  | returned (a : α) (w : World σ)
  | panicked (w : World σ)

/-- The world in which a run ended. -/
def Outcome.world {σ α : Type} : Outcome σ α → World σ
  | .returned _ w => w
  | .panicked w => w

/-- The value a run returned, `none` when it panicked. -/
def Outcome.value {σ α : Type} : Outcome σ α → Option α
  | .returned a _ => some a
  | .panicked _ => none

/-! ## Instrumented SDK calls -/

section Calls
variable {σ : Type}

/-- Step `svc.GetInstance(&lightsail.GetInstanceInput{InstanceName: name})`. -/
def callGetInstance (svc : Lightsail σ) (name : String) (w : World σ) :
    (Option GetInstanceOutput × Option Error) × World σ :=
  ((svc.GetInstance name w.state).1,
    ⟨(svc.GetInstance name w.state).2, w.trace ++ [Call.GetInstance name]⟩)

/-- Step `svc.GetStaticIp(&lightsail.GetStaticIpInput{StaticIpName: name})`. -/
def callGetStaticIp (svc : Lightsail σ) (name : String) (w : World σ) :
    Option Error × World σ :=
  ((svc.GetStaticIp name w.state).1,
    ⟨(svc.GetStaticIp name w.state).2, w.trace ++ [Call.GetStaticIp name]⟩)

/-- Step `svc.DetachStaticIp(&lightsail.DetachStaticIpInput{StaticIpName: name})`. -/
def callDetachStaticIp (svc : Lightsail σ) (name : String) (w : World σ) :
    Option Error × World σ :=
  ((svc.DetachStaticIp name w.state).1,
    ⟨(svc.DetachStaticIp name w.state).2, w.trace ++ [Call.DetachStaticIp name]⟩)

/-- Step `svc.ReleaseStaticIp(&lightsail.ReleaseStaticIpInput{StaticIpName: name})`. -/
def callReleaseStaticIp (svc : Lightsail σ) (name : String) (w : World σ) :
    Option Error × World σ :=
  ((svc.ReleaseStaticIp name w.state).1,
    ⟨(svc.ReleaseStaticIp name w.state).2, w.trace ++ [Call.ReleaseStaticIp name]⟩)

/-- Step `svc.AllocateStaticIp(&lightsail.AllocateStaticIpInput{StaticIpName: name})`. -/
def callAllocateStaticIp (svc : Lightsail σ) (name : String) (w : World σ) :
    Option Error × World σ :=
  ((svc.AllocateStaticIp name w.state).1,
    ⟨(svc.AllocateStaticIp name w.state).2, w.trace ++ [Call.AllocateStaticIp name]⟩)

/-- Step `svc.AttachStaticIp(&lightsail.AttachStaticIpInput{StaticIpName, InstanceName})`. -/
def callAttachStaticIp (svc : Lightsail σ) (staticIpName instanceName : String)
    (w : World σ) : Option Error × World σ :=
  ((svc.AttachStaticIp staticIpName instanceName w.state).1,
    ⟨(svc.AttachStaticIp staticIpName instanceName w.state).2,
      w.trace ++ [Call.AttachStaticIp staticIpName instanceName]⟩)

/-- Step `time.Sleep(seconds * time.Second)`. -/
def timeSleep (svc : Lightsail σ) (seconds : Nat) (w : World σ) : World σ :=
  ⟨svc.Sleep seconds w.state, w.trace ++ [Call.Sleep seconds]⟩

/-- The Go expression `*instanceOutput.Instance.PublicIpAddress`: `none` when any of the
three pointers on the way is nil (the expression panics). -/
def derefPublicIp (instanceOutput : Option GetInstanceOutput) : Option String :=
  (instanceOutput.bind (fun o => o.Instance)).bind (fun i => i.PublicIpAddress)

/-- The Go expression `*inst.IsStaticIp` for `inst := instanceOutput.Instance`. -/
def derefIsStaticIp (instanceOutput : Option GetInstanceOutput) : Option Bool :=
  (instanceOutput.bind (fun o => o.Instance)).bind (fun i => i.IsStaticIp)

/-! ## `changeIP` -/

/-- The function `changeIP` of `main.go`. The returned triple is `(oldIP, newIP, err)`. -/
def changeIP (svc : Lightsail σ) (instanceName staticIPName : String) (w : World σ) :
    Outcome σ (String × String × Option Error) :=
  let oldIP := "0.0.0.0"
  let newIP := ""
  let r := callGetInstance svc instanceName w
  match r.1.2 with
  | some err => .returned (oldIP, newIP, some ("failed to get instance: " ++ err)) r.2
  | none =>
    let instanceOutput := r.1.1
    let w := r.2
    -- oldIP = *inst.PublicIpAddress
    match derefPublicIp instanceOutput with
    | none => .panicked w
    | some oldIP =>
      -- if *inst.IsStaticIp
      match derefIsStaticIp instanceOutput with
      | none => .panicked w
      | some true =>
        let w := (callDetachStaticIp svc staticIPName w).2
        let w := (callReleaseStaticIp svc staticIPName w).2
        let w := timeSleep svc 5 w
        let r := callGetInstance svc instanceName w
        match derefPublicIp r.1.1 with
        | none => .panicked r.2
        | some newIP => .returned (oldIP, newIP, none) r.2
      | some false =>
        let p := callGetStaticIp svc staticIPName w
        let w :=
          match p.1 with
          | none =>
            let w := (callDetachStaticIp svc staticIPName p.2).2
            (callReleaseStaticIp svc staticIPName w).2
          | some _ => p.2
        let a := callAllocateStaticIp svc staticIPName w
        match a.1 with
        | some err => .returned (oldIP, newIP, some ("failed to allocate static ip: " ++ err)) a.2
        | none =>
          let t := callAttachStaticIp svc staticIPName instanceName a.2
          match t.1 with
          | some err =>
            .returned (oldIP, newIP, some ("failed to attach static ip: " ++ err)) t.2
          | none =>
            let w := timeSleep svc 5 t.2
            let r := callGetInstance svc instanceName w
            match derefPublicIp r.1.1 with
            | none => .panicked r.2
            | some newIP => .returned (oldIP, newIP, none) r.2

/-! ## `changeIPHandler` -/

/-- A JSON scalar as it appears in the answers. -/
inductive JVal where
  | str (s : String)
  | bool (b : Bool)
deriving DecidableEq, Repr

/-- What `c.JSON(status, body)` writes: the status code and the fields of the body. -/
structure Response where
  status : Nat
  body : List (String × JVal)
deriving DecidableEq, Repr

/-- JSON fields of an `IPChangeResult`, by its struct tags. -/
def IPChangeResult.toJSON (r : IPChangeResult) : List (String × JVal) :=
  [("instance_name", .str r.InstanceName), ("old_ip", .str r.OldIP),
   ("new_ip", .str r.NewIP), ("message", .str r.Message), ("success", .bool r.Success)]

/-- The lookup loop of `changeIPHandler`:
`for _, inst := range config.Instances { if inst.Name == instanceName { target = &inst; break } }`. -/
def findTarget : List InstanceConfig → String → Option InstanceConfig
  | [], _ => none
  | inst :: rest, instanceName =>
    if inst.Name = instanceName then some inst else findTarget rest instanceName

/-- The function `changeIPHandler` of `main.go`; `query` is `c.Query("instance")`
(the empty string when the parameter is missing). -/
def changeIPHandler (config : Config) (svc : Lightsail σ) (query : String) (w : World σ) :
    Outcome σ Response :=
  let instanceName := query
  if instanceName = "" then
    .returned ⟨400, [("success", .bool false),
      ("message", .str "instance parameter is required")]⟩ w
  else
    match findTarget config.Instances instanceName with
    | none =>
      .returned ⟨400, [("success", .bool false),
        ("message", .str ("instance '" ++ instanceName ++ "' not found in config"))]⟩ w
    | some targetInstance =>
      match changeIP svc targetInstance.InstanceName targetInstance.StaticIPName w with
      | .panicked w => .panicked w
      | .returned (oldIP, newIP, some err) w =>
        .returned ⟨500, [("success", .bool false),
          ("message", .str ("changeIP failed: " ++ err)),
          ("instance", .str targetInstance.InstanceName),
          ("old_ip", .str oldIP),
          ("new_ip", .str newIP)]⟩ w
      | .returned (oldIP, newIP, none) w =>
        let result : IPChangeResult :=
          { InstanceName := targetInstance.InstanceName
            OldIP := oldIP
            NewIP := newIP
            Message := "IP changed successfully"
            Success := true }
        .returned ⟨200, result.toJSON⟩ w

end Calls

/-! ## A configurable provider double

Used to run the definitions on concrete inputs. Its state counts the `GetInstance`
calls answered so far; a failing call answers as the SDK does, with an output record
whose fields are unset together with the error. -/

/-- The script of a provider double. -/
structure Double where
  failFirstGet : Bool
  failSecondGet : Bool
  isStatic : Bool
  firstIP : String
  secondIP : String
  orphan : Bool
  failDetach : Bool
  failRelease : Bool
  failAllocate : Bool
  failAttach : Bool

/-- A successful `GetInstance` answer. -/
def snapshot (ip : String) (isStatic : Bool) : Option GetInstanceOutput × Option Error :=
  (some ⟨some ⟨some ip, some isStatic⟩⟩, none)

/-- A failed `GetInstance` answer: an output record with no instance, and an error. -/
def notFound : Option GetInstanceOutput × Option Error :=
  (some ⟨none⟩, some "NotFoundException")

/-- The provider double following a script. -/
def double (d : Double) : Lightsail Nat where
  GetInstance := fun _ n =>
    if n = 0 then (if d.failFirstGet then notFound else snapshot d.firstIP d.isStatic, n + 1)
    else (if d.failSecondGet then notFound else snapshot d.secondIP false, n + 1)
  GetStaticIp := fun _ n => (if d.orphan then none else some "NotFoundException", n)
  DetachStaticIp := fun _ n => (if d.failDetach then some "detach failed" else none, n)
  ReleaseStaticIp := fun _ n => (if d.failRelease then some "release failed" else none, n)
  AllocateStaticIp := fun _ n => (if d.failAllocate then some "quota exceeded" else none, n)
  AttachStaticIp := fun _ _ n => (if d.failAttach then some "attach failed" else none, n)
  Sleep := fun _ n => n

/-- The script in which every call succeeds on an instance without a static IP. -/
def happy : Double :=
  { failFirstGet := false, failSecondGet := false, isStatic := false,
    firstIP := "1.1.1.1", secondIP := "2.2.2.2", orphan := false,
    failDetach := false, failRelease := false, failAllocate := false, failAttach := false }

/-- The script of an instance bound to a static IP whose detach and release both fail. -/
def boundToStatic : Double :=
  { happy with isStatic := true, failDetach := true, failRelease := true }

/-- The script of an instance without a static IP whose name is held by an orphaned
resource, with failing detach and release. -/
def orphaned : Double :=
  { happy with orphan := true, failDetach := true, failRelease := true }

/-- The provider `svc` with the errors answered by `DetachStaticIp` and `ReleaseStaticIp`
replaced by those of `f` and `g`; the provider states are as with `svc`. -/
def withBestEffortErrors {σ : Type} (svc : Lightsail σ) (f g : String → σ → Option Error) :
    Lightsail σ :=
  { svc with
    DetachStaticIp := fun name s => (f name s, (svc.DetachStaticIp name s).2)
    ReleaseStaticIp := fun name s => (g name s, (svc.ReleaseStaticIp name s).2) }

/-- A configuration in which two records share the name `web`. -/
def duplicated : Config :=
  ⟨[⟨"db", "db-1", "ip-db"⟩, ⟨"web", "web-1", "ip-1"⟩, ⟨"web", "web-2", "ip-2"⟩]⟩

/-- The script in which the final `GetInstance` fails. -/
def finalGetFails : Double :=
  { happy with failSecondGet := true }

/-- The script in which the final `GetInstance` reports an empty public address. -/
def emptyAddress : Double :=
  { happy with secondIP := "" }

/-! ## Lemmas on the lookup loop -/

/-- The loop finds nothing when no record carries the requested name. -/
theorem findTarget_none_of_no_match (l : List InstanceConfig) (q : String)
    (h : ∀ r ∈ l, r.Name ≠ q) : findTarget l q = none := by
  induction l with
  | nil => rfl
  | cons a t ih =>
    have ha : a.Name ≠ q := h a (List.mem_cons_self a t)
    have ht : ∀ r ∈ t, r.Name ≠ q := fun r hr => h r (List.mem_cons_of_mem a hr)
    simp [findTarget, ha, ih ht]

/-- The loop stops at the first record carrying the requested name. -/
theorem findTarget_first_match (front back : List InstanceConfig) (r : InstanceConfig)
    (q : String) (hfront : ∀ x ∈ front, x.Name ≠ q) (hr : r.Name = q) :
    findTarget (front ++ r :: back) q = some r := by
  induction front with
  | nil => simp [findTarget, hr]
  | cons a t ih =>
    have ha : a.Name ≠ q := hfront a (List.mem_cons_self a t)
    have ht : ∀ x ∈ t, x.Name ≠ q := fun x hx => hfront x (List.mem_cons_of_mem a hx)
    simp [findTarget, ha, ih ht]

/-- A list holding a record with the requested name splits at the first such record. -/
theorem exists_first_match (l : List InstanceConfig) (q : String)
    (h : ∃ x ∈ l, x.Name = q) :
    ∃ front r back, l = front ++ r :: back ∧ (∀ x ∈ front, x.Name ≠ q) ∧ r.Name = q := by
  induction l with
  | nil => simp at h
  | cons a t ih =>
    by_cases ha : a.Name = q
    · exact ⟨[], a, t, rfl, by simp, ha⟩
    · have ht : ∃ x ∈ t, x.Name = q := by
        obtain ⟨x, hx, hxq⟩ := h
        rcases List.mem_cons.mp hx with rfl | hxt
        · exact absurd hxq ha
        · exact ⟨x, hxt, hxq⟩
      obtain ⟨front, r, back, hl, hfront, hr⟩ := ih ht
      refine ⟨a :: front, r, back, by simp [hl], ?_, hr⟩
      intro x hx
      rcases List.mem_cons.mp hx with rfl | hxf
      · exact ha
      · exact hfront x hxf

/-! ## Theorems -/

section Theorems
variable {σ : Type}

/-- C1: when the first `GetInstance` succeeds with `IsStaticIp = false` and
`AllocateStaticIp`, `AttachStaticIp` and the second `GetInstance` succeed, `changeIP`
returns no error, with the first snapshot's address as old IP and the second
snapshot's address as new IP. The steps of the run are exactly: `GetInstance`, the
`GetStaticIp` probe, (`DetachStaticIp`, `ReleaseStaticIp` when the probe found the
resource), `AllocateStaticIp`, one `AttachStaticIp` with the given static-IP name and
instance id, the 5 second sleep, and then the second `GetInstance`. -/
theorem changeIP_allocates_and_attaches (svc : Lightsail σ) (instanceName staticIPName : String)
    (w : World σ) (ip1 ip2 : String) (b2 : Option Bool) (probe : Option Error)
    (s1 s2 s3 s4 s5 s6 : σ)
    (h1 : svc.GetInstance instanceName w.state
      = ((some ⟨some ⟨some ip1, some false⟩⟩, none), s1))
    (h2 : svc.GetStaticIp staticIPName s1 = (probe, s2))
    (h3 : s3 = if probe = none then
      (svc.ReleaseStaticIp staticIPName (svc.DetachStaticIp staticIPName s2).2).2 else s2)
    (h4 : svc.AllocateStaticIp staticIPName s3 = (none, s4))
    (h5 : svc.AttachStaticIp staticIPName instanceName s4 = (none, s5))
    (h6 : svc.GetInstance instanceName (svc.Sleep 5 s5)
      = ((some ⟨some ⟨some ip2, b2⟩⟩, none), s6)) :
    changeIP svc instanceName staticIPName w
      = .returned (ip1, ip2, none)
          ⟨s6, w.trace ++ [Call.GetInstance instanceName, Call.GetStaticIp staticIPName]
            ++ (if probe = none then
                  [Call.DetachStaticIp staticIPName, Call.ReleaseStaticIp staticIPName]
                else [])
            ++ [Call.AllocateStaticIp staticIPName,
                Call.AttachStaticIp staticIPName instanceName,
                Call.Sleep 5, Call.GetInstance instanceName]⟩ := by
  subst h3
  cases probe <;>
    simp [changeIP, callGetInstance, callGetStaticIp, callDetachStaticIp,
      callReleaseStaticIp, callAllocateStaticIp, callAttachStaticIp, timeSleep,
      derefPublicIp, derefIsStaticIp, h1, h2] at h4 ⊢ <;>
    simp [h4, h5, h6]

/-- C1 on the double in which every call succeeds. -/
theorem changeIP_allocates_and_attaches_witness :
    changeIP (double happy) "web-1" "ip-1" ⟨0, []⟩
      = .returned ("1.1.1.1", "2.2.2.2", none)
          ⟨2, [Call.GetInstance "web-1", Call.GetStaticIp "ip-1",
               Call.AllocateStaticIp "ip-1", Call.AttachStaticIp "ip-1" "web-1",
               Call.Sleep 5, Call.GetInstance "web-1"]⟩ :=
  changeIP_allocates_and_attaches (double happy) "web-1" "ip-1" ⟨0, []⟩ "1.1.1.1" "2.2.2.2"
    (some false) (some "NotFoundException") 1 1 1 1 1 2 rfl rfl rfl rfl rfl rfl

/-- C2: when the first `GetInstance` fails, `changeIP` returns an error with old IP
`"0.0.0.0"` and new IP `""`, and that failed call is the only step of the run; for a
request resolved to a record with this instance id and static-IP name,
`changeIPHandler` answers 500 with `success = false` and the same two addresses. -/
theorem changeIP_first_get_fails (svc : Lightsail σ) (instanceName staticIPName : String)
    (w : World σ) (out : Option GetInstanceOutput) (e : Error) (s1 : σ)
    (h1 : svc.GetInstance instanceName w.state = ((out, some e), s1)) :
    changeIP svc instanceName staticIPName w
      = .returned ("0.0.0.0", "", some ("failed to get instance: " ++ e))
          ⟨s1, w.trace ++ [Call.GetInstance instanceName]⟩
    ∧ ∀ (config : Config) (query : String) (target : InstanceConfig),
        query ≠ "" → findTarget config.Instances query = some target →
        target.InstanceName = instanceName → target.StaticIPName = staticIPName →
        changeIPHandler config svc query w
          = .returned ⟨500, [("success", .bool false),
              ("message", .str ("changeIP failed: " ++ ("failed to get instance: " ++ e))),
              ("instance", .str instanceName),
              ("old_ip", .str "0.0.0.0"),
              ("new_ip", .str "")]⟩
              ⟨s1, w.trace ++ [Call.GetInstance instanceName]⟩ := by
  have hc : changeIP svc instanceName staticIPName w
      = .returned ("0.0.0.0", "", some ("failed to get instance: " ++ e))
          ⟨s1, w.trace ++ [Call.GetInstance instanceName]⟩ := by
    simp [changeIP, callGetInstance, h1]
  refine ⟨hc, ?_⟩
  intro config query target hq hf hi hs
  subst hi hs
  simp [changeIPHandler, hq, hf, hc]

/-- C2 on a double whose first `GetInstance` fails. -/
theorem changeIP_first_get_fails_witness :
    changeIP (double { happy with failFirstGet := true }) "web-1" "ip-1" ⟨0, []⟩
      = .returned ("0.0.0.0", "", some "failed to get instance: NotFoundException")
          ⟨1, [Call.GetInstance "web-1"]⟩
    ∧ changeIPHandler ⟨[⟨"web", "web-1", "ip-1"⟩]⟩
        (double { happy with failFirstGet := true }) "web" ⟨0, []⟩
      = .returned ⟨500, [("success", .bool false),
          ("message", .str "changeIP failed: failed to get instance: NotFoundException"),
          ("instance", .str "web-1"),
          ("old_ip", .str "0.0.0.0"),
          ("new_ip", .str "")]⟩ ⟨1, [Call.GetInstance "web-1"]⟩ :=
  have h := changeIP_first_get_fails (double { happy with failFirstGet := true })
    "web-1" "ip-1" ⟨0, []⟩ (some ⟨none⟩) "NotFoundException" 1 rfl
  ⟨h.1, h.2 ⟨[⟨"web", "web-1", "ip-1"⟩]⟩ "web" ⟨"web", "web-1", "ip-1"⟩
    (by decide) rfl rfl rfl⟩

/-- C3: on an instance whose first snapshot has `IsStaticIp = false`, when
`AllocateStaticIp` fails `changeIP` returns an error with the first snapshot's address
as old IP and `""` as new IP, and the failed `AllocateStaticIp` is the last step of
the run: no `AttachStaticIp` and no second `GetInstance` take place. -/
theorem changeIP_allocate_fails (svc : Lightsail σ) (instanceName staticIPName : String)
    (w : World σ) (ip1 : String) (probe : Option Error) (e : Error) (s1 s2 s3 s4 : σ)
    (h1 : svc.GetInstance instanceName w.state
      = ((some ⟨some ⟨some ip1, some false⟩⟩, none), s1))
    (h2 : svc.GetStaticIp staticIPName s1 = (probe, s2))
    (h3 : s3 = if probe = none then
      (svc.ReleaseStaticIp staticIPName (svc.DetachStaticIp staticIPName s2).2).2 else s2)
    (h4 : svc.AllocateStaticIp staticIPName s3 = (some e, s4)) :
    changeIP svc instanceName staticIPName w
      = .returned (ip1, "", some ("failed to allocate static ip: " ++ e))
          ⟨s4, w.trace ++ [Call.GetInstance instanceName, Call.GetStaticIp staticIPName]
            ++ (if probe = none then
                  [Call.DetachStaticIp staticIPName, Call.ReleaseStaticIp staticIPName]
                else [])
            ++ [Call.AllocateStaticIp staticIPName]⟩ := by
  subst h3
  cases probe <;>
    simp [changeIP, callGetInstance, callGetStaticIp, callDetachStaticIp,
      callReleaseStaticIp, callAllocateStaticIp, derefPublicIp, derefIsStaticIp,
      h1, h2] at h4 ⊢ <;>
    simp [h4]

/-- C3 on a double whose `AllocateStaticIp` fails. -/
theorem changeIP_allocate_fails_witness :
    changeIP (double { happy with failAllocate := true }) "web-1" "ip-1" ⟨0, []⟩
      = .returned ("1.1.1.1", "", some "failed to allocate static ip: quota exceeded")
          ⟨1, [Call.GetInstance "web-1", Call.GetStaticIp "ip-1",
               Call.AllocateStaticIp "ip-1"]⟩ :=
  changeIP_allocate_fails (double { happy with failAllocate := true }) "web-1" "ip-1"
    ⟨0, []⟩ "1.1.1.1" (some "NotFoundException") "quota exceeded" 1 1 1 1 rfl rfl rfl rfl

/-- C4: when `AllocateStaticIp` succeeds and `AttachStaticIp` fails, `changeIP` returns
an error with the first snapshot's address as old IP and `""` as new IP, and the
failed `AttachStaticIp` is the last step of the run: no release or detach of the
resource just allocated and no second `GetInstance` follow it. -/
theorem changeIP_attach_fails (svc : Lightsail σ) (instanceName staticIPName : String)
    (w : World σ) (ip1 : String) (probe : Option Error) (e : Error) (s1 s2 s3 s4 s5 : σ)
    (h1 : svc.GetInstance instanceName w.state
      = ((some ⟨some ⟨some ip1, some false⟩⟩, none), s1))
    (h2 : svc.GetStaticIp staticIPName s1 = (probe, s2))
    (h3 : s3 = if probe = none then
      (svc.ReleaseStaticIp staticIPName (svc.DetachStaticIp staticIPName s2).2).2 else s2)
    (h4 : svc.AllocateStaticIp staticIPName s3 = (none, s4))
    (h5 : svc.AttachStaticIp staticIPName instanceName s4 = (some e, s5)) :
    changeIP svc instanceName staticIPName w
      = .returned (ip1, "", some ("failed to attach static ip: " ++ e))
          ⟨s5, w.trace ++ [Call.GetInstance instanceName, Call.GetStaticIp staticIPName]
            ++ (if probe = none then
                  [Call.DetachStaticIp staticIPName, Call.ReleaseStaticIp staticIPName]
                else [])
            ++ [Call.AllocateStaticIp staticIPName,
                Call.AttachStaticIp staticIPName instanceName]⟩ := by
  subst h3
  cases probe <;>
    simp [changeIP, callGetInstance, callGetStaticIp, callDetachStaticIp,
      callReleaseStaticIp, callAllocateStaticIp, callAttachStaticIp,
      derefPublicIp, derefIsStaticIp, h1, h2] at h4 ⊢ <;>
    simp [h4, h5]

/-- C4 on a double holding an orphaned resource and whose `AttachStaticIp` fails. -/
theorem changeIP_attach_fails_witness :
    changeIP (double { happy with orphan := true, failAttach := true }) "web-1" "ip-1"
        ⟨0, []⟩
      = .returned ("1.1.1.1", "", some "failed to attach static ip: attach failed")
          ⟨1, [Call.GetInstance "web-1", Call.GetStaticIp "ip-1",
               Call.DetachStaticIp "ip-1", Call.ReleaseStaticIp "ip-1",
               Call.AllocateStaticIp "ip-1", Call.AttachStaticIp "ip-1" "web-1"]⟩ :=
  changeIP_attach_fails (double { happy with orphan := true, failAttach := true })
    "web-1" "ip-1" ⟨0, []⟩ "1.1.1.1" none "attach failed" 1 1 1 1 1 rfl rfl rfl rfl rfl

/-- C6: on an instance whose first snapshot has `IsStaticIp = true` and whose re-query
succeeds, the steps of the run are exactly `GetInstance`, `DetachStaticIp`,
`ReleaseStaticIp`, a 5 second sleep, `GetInstance` (so no allocate, attach or probe),
and `changeIP` returns no error with the first snapshot's address as old IP and the
re-queried address as new IP, whatever errors detach and release answer. -/
theorem changeIP_detach_only (svc : Lightsail σ) (instanceName staticIPName : String)
    (w : World σ) (ip1 ip2 : String) (b2 : Option Bool) (detachErr releaseErr : Option Error)
    (s1 s2 s3 s4 : σ)
    (h1 : svc.GetInstance instanceName w.state
      = ((some ⟨some ⟨some ip1, some true⟩⟩, none), s1))
    (h2 : svc.DetachStaticIp staticIPName s1 = (detachErr, s2))
    (h3 : svc.ReleaseStaticIp staticIPName s2 = (releaseErr, s3))
    (h4 : svc.GetInstance instanceName (svc.Sleep 5 s3)
      = ((some ⟨some ⟨some ip2, b2⟩⟩, none), s4)) :
    changeIP svc instanceName staticIPName w
      = .returned (ip1, ip2, none)
          ⟨s4, w.trace ++ [Call.GetInstance instanceName, Call.DetachStaticIp staticIPName,
            Call.ReleaseStaticIp staticIPName, Call.Sleep 5,
            Call.GetInstance instanceName]⟩ := by
  simp [changeIP, callGetInstance, callDetachStaticIp, callReleaseStaticIp, timeSleep,
    derefPublicIp, derefIsStaticIp, h1, h2, h3, h4]

/-- C6 on a double bound to a static IP whose detach and release both fail. -/
theorem changeIP_detach_only_witness :
    changeIP (double boundToStatic) "web-1" "ip-1" ⟨0, []⟩
      = .returned ("1.1.1.1", "2.2.2.2", none)
          ⟨2, [Call.GetInstance "web-1", Call.DetachStaticIp "ip-1",
               Call.ReleaseStaticIp "ip-1", Call.Sleep 5, Call.GetInstance "web-1"]⟩ :=
  changeIP_detach_only (double boundToStatic) "web-1" "ip-1" ⟨0, []⟩ "1.1.1.1" "2.2.2.2" (some false)
    (some "detach failed") (some "release failed") 1 1 1 2 rfl rfl rfl rfl

/-- C7: on an instance whose first snapshot has `IsStaticIp = false`, the run starts with
`GetInstance`, one `GetStaticIp` probe, then `DetachStaticIp` and `ReleaseStaticIp` once
each exactly when the probe found the resource, then `AllocateStaticIp`; what follows is
nothing, the attach, or the attach, the sleep and the second `GetInstance`. Replacing
the errors answered by detach and release changes nothing of the outcome. Every error
`changeIP` returns is the failure of `AllocateStaticIp` or of `AttachStaticIp`, never
that of the probe. -/
theorem changeIP_probe_best_effort (svc : Lightsail σ) (instanceName staticIPName : String)
    (w : World σ) (ip1 : String) (probe : Option Error) (s1 s2 s3 : σ)
    (h1 : svc.GetInstance instanceName w.state
      = ((some ⟨some ⟨some ip1, some false⟩⟩, none), s1))
    (h2 : svc.GetStaticIp staticIPName s1 = (probe, s2))
    (h3 : s3 = if probe = none then
      (svc.ReleaseStaticIp staticIPName (svc.DetachStaticIp staticIPName s2).2).2 else s2) :
    (∃ rest, rest ∈ [[], [Call.AttachStaticIp staticIPName instanceName],
          [Call.AttachStaticIp staticIPName instanceName, Call.Sleep 5,
            Call.GetInstance instanceName]]
        ∧ (changeIP svc instanceName staticIPName w).world.trace
          = w.trace ++ [Call.GetInstance instanceName, Call.GetStaticIp staticIPName]
            ++ (if probe = none then
                  [Call.DetachStaticIp staticIPName, Call.ReleaseStaticIp staticIPName]
                else [])
            ++ [Call.AllocateStaticIp staticIPName] ++ rest)
    ∧ (∀ f g : String → σ → Option Error,
        changeIP (withBestEffortErrors svc f g) instanceName staticIPName w
          = changeIP svc instanceName staticIPName w)
    ∧ (∀ oldIP newIP e,
        (changeIP svc instanceName staticIPName w).value = some (oldIP, newIP, some e) →
        (∃ ea, (svc.AllocateStaticIp staticIPName s3).1 = some ea
            ∧ e = "failed to allocate static ip: " ++ ea)
        ∨ (∃ et, (svc.AllocateStaticIp staticIPName s3).1 = none
            ∧ (svc.AttachStaticIp staticIPName instanceName
                (svc.AllocateStaticIp staticIPName s3).2).1 = some et
            ∧ e = "failed to attach static ip: " ++ et)) := by
  subst h3
  refine ⟨?_, fun _ _ => rfl, ?_⟩
  · cases probe <;>
      simp only [changeIP, callGetInstance, callGetStaticIp, callDetachStaticIp,
        callReleaseStaticIp, callAllocateStaticIp, callAttachStaticIp, timeSleep,
        derefPublicIp, derefIsStaticIp, h1, h2, Option.bind, if_true, if_false,
        reduceCtorEq] <;>
      split <;> try split <;> try split
    all_goals simp [Outcome.world]
  · intro oldIP newIP e
    cases probe <;>
      simp only [changeIP, callGetInstance, callGetStaticIp, callDetachStaticIp,
        callReleaseStaticIp, callAllocateStaticIp, callAttachStaticIp, timeSleep,
        derefPublicIp, derefIsStaticIp, h1, h2, Option.bind, if_true, if_false,
        reduceCtorEq] <;>
      split <;> try split <;> try split
    all_goals simp_all [Outcome.value]

/-- C7 on a double whose name is held by an orphaned resource. -/
theorem changeIP_probe_best_effort_witness :
    (∃ rest, rest ∈ [[], [Call.AttachStaticIp "ip-1" "web-1"],
          [Call.AttachStaticIp "ip-1" "web-1", Call.Sleep 5, Call.GetInstance "web-1"]]
        ∧ (changeIP (double orphaned) "web-1" "ip-1" ⟨0, []⟩).world.trace
          = [] ++ [Call.GetInstance "web-1", Call.GetStaticIp "ip-1"]
            ++ (if (none : Option Error) = none then
                  [Call.DetachStaticIp "ip-1", Call.ReleaseStaticIp "ip-1"]
                else [])
            ++ [Call.AllocateStaticIp "ip-1"] ++ rest)
    ∧ (∀ f g : String → Nat → Option Error,
        changeIP (withBestEffortErrors (double orphaned) f g) "web-1" "ip-1" ⟨0, []⟩
          = changeIP (double orphaned) "web-1" "ip-1" ⟨0, []⟩)
    ∧ (∀ oldIP newIP e,
        (changeIP (double orphaned) "web-1" "ip-1" ⟨0, []⟩).value
          = some (oldIP, newIP, some e) →
        (∃ ea, ((double orphaned).AllocateStaticIp "ip-1" 1).1 = some ea
            ∧ e = "failed to allocate static ip: " ++ ea)
        ∨ (∃ et, ((double orphaned).AllocateStaticIp "ip-1" 1).1 = none
            ∧ ((double orphaned).AttachStaticIp "ip-1" "web-1"
                ((double orphaned).AllocateStaticIp "ip-1" 1).2).1 = some et
            ∧ e = "failed to attach static ip: " ++ et)) :=
  changeIP_probe_best_effort (double orphaned) "web-1" "ip-1" ⟨0, []⟩ "1.1.1.1" none 1 1 1
    rfl rfl rfl

/-- C8: a request whose `instance` parameter is empty, or names no configured record,
is answered 400 with `success = false` and leaves the world untouched (no provider
call); the message is `instance parameter is required` for the empty parameter and
`instance 'n' not found in config` for an unknown non-empty name `n`. -/
theorem changeIPHandler_rejects (config : Config) (svc : Lightsail σ) (query : String)
    (w : World σ) (h : query = "" ∨ ∀ r ∈ config.Instances, r.Name ≠ query) :
    ∃ msg, changeIPHandler config svc query w
        = .returned ⟨400, [("success", .bool false), ("message", .str msg)]⟩ w
      ∧ (query = "" → msg = "instance parameter is required")
      ∧ (query ≠ "" → msg = "instance '" ++ query ++ "' not found in config"
          ∧ ∃ front back, msg = front ++ query ++ back) := by
  by_cases hq : query = ""
  · exact ⟨"instance parameter is required", by simp [changeIPHandler, hq], fun _ => rfl,
      fun hne => absurd hq hne⟩
  · have hno : ∀ r ∈ config.Instances, r.Name ≠ query := h.resolve_left hq
    refine ⟨"instance '" ++ query ++ "' not found in config", ?_, fun he => absurd he hq,
      fun _ => ⟨rfl, "instance '", "' not found in config", rfl⟩⟩
    simp [changeIPHandler, hq, findTarget_none_of_no_match _ _ hno]

/-- C8 on the request `instance=ghost` against a configuration without that name. -/
theorem changeIPHandler_rejects_witness :
    ∃ msg, changeIPHandler ⟨[⟨"web", "web-1", "ip-1"⟩]⟩ (double happy) "ghost" ⟨0, []⟩
        = .returned ⟨400, [("success", .bool false), ("message", .str msg)]⟩ ⟨0, []⟩
      ∧ ("ghost" = "" → msg = "instance parameter is required")
      ∧ ("ghost" ≠ "" → msg = "instance '" ++ "ghost" ++ "' not found in config"
          ∧ ∃ front back, msg = front ++ "ghost" ++ back) :=
  changeIPHandler_rejects ⟨[⟨"web", "web-1", "ip-1"⟩]⟩ (double happy) "ghost" ⟨0, []⟩
    (Or.inr (by decide))

/-- C9: for a non-empty requested name carried by at least one record, the
configuration list splits at the first record with that name, and `changeIPHandler`
is `changeIP` run on that record's instance id and static-IP name, answered with that
record's instance id: 500 with the error and both addresses when `changeIP` returns an
error, 200 with the `IPChangeResult` otherwise. The records behind the first match do
not enter the outcome. -/
theorem changeIPHandler_first_match (config : Config) (svc : Lightsail σ) (query : String)
    (w : World σ) (hq : query ≠ "") (hex : ∃ x ∈ config.Instances, x.Name = query) :
    ∃ front target back, config.Instances = front ++ target :: back
      ∧ (∀ x ∈ front, x.Name ≠ query) ∧ target.Name = query
      ∧ changeIPHandler config svc query w
        = (match changeIP svc target.InstanceName target.StaticIPName w with
          | .panicked w1 => .panicked w1
          | .returned (oldIP, newIP, some err) w1 =>
            .returned ⟨500, [("success", .bool false),
              ("message", .str ("changeIP failed: " ++ err)),
              ("instance", .str target.InstanceName),
              ("old_ip", .str oldIP),
              ("new_ip", .str newIP)]⟩ w1
          | .returned (oldIP, newIP, none) w1 =>
            .returned ⟨200, [("instance_name", .str target.InstanceName),
              ("old_ip", .str oldIP), ("new_ip", .str newIP),
              ("message", .str "IP changed successfully"),
              ("success", .bool true)]⟩ w1)
      ∧ changeIPHandler config svc query w = changeIPHandler ⟨[target]⟩ svc query w := by
  obtain ⟨front, target, back, hl, hfront, ht⟩ := exists_first_match _ _ hex
  have hfind : findTarget config.Instances query = some target := by
    rw [hl]; exact findTarget_first_match front back target query hfront ht
  have hone : findTarget [target] query = some target := by simp [findTarget, ht]
  refine ⟨front, target, back, hl, hfront, ht, ?_, ?_⟩
  · simp only [changeIPHandler, hq, if_false, hfind]
    cases changeIP svc target.InstanceName target.StaticIPName w with
    | panicked w1 => rfl
    | returned a w1 =>
      obtain ⟨o, n, e⟩ := a
      cases e <;> rfl
  · simp only [changeIPHandler, hq, if_false, hfind, hone]

/-- C9 on a configuration in which two records are named `web`: the first is used. -/
theorem changeIPHandler_first_match_witness :
    (∃ front target back, duplicated.Instances = front ++ target :: back
      ∧ (∀ x ∈ front, x.Name ≠ "web") ∧ target.Name = "web"
      ∧ changeIPHandler duplicated (double happy) "web" ⟨0, []⟩
        = (match changeIP (double happy) target.InstanceName target.StaticIPName ⟨0, []⟩ with
          | .panicked w1 => .panicked w1
          | .returned (oldIP, newIP, some err) w1 =>
            .returned ⟨500, [("success", .bool false),
              ("message", .str ("changeIP failed: " ++ err)),
              ("instance", .str target.InstanceName),
              ("old_ip", .str oldIP),
              ("new_ip", .str newIP)]⟩ w1
          | .returned (oldIP, newIP, none) w1 =>
            .returned ⟨200, [("instance_name", .str target.InstanceName),
              ("old_ip", .str oldIP), ("new_ip", .str newIP),
              ("message", .str "IP changed successfully"),
              ("success", .bool true)]⟩ w1)
      ∧ changeIPHandler duplicated (double happy) "web" ⟨0, []⟩
        = changeIPHandler ⟨[target]⟩ (double happy) "web" ⟨0, []⟩)
    ∧ changeIPHandler duplicated (double happy) "web" ⟨0, []⟩
        = .returned ⟨200, [("instance_name", .str "web-1"),
              ("old_ip", .str "1.1.1.1"), ("new_ip", .str "2.2.2.2"),
              ("message", .str "IP changed successfully"),
              ("success", .bool true)]⟩
            ⟨2, [Call.GetInstance "web-1", Call.GetStaticIp "ip-1",
               Call.AllocateStaticIp "ip-1", Call.AttachStaticIp "ip-1" "web-1",
               Call.Sleep 5, Call.GetInstance "web-1"]⟩ :=
  ⟨changeIPHandler_first_match duplicated (double happy) "web" ⟨0, []⟩ (by decide)
    ⟨⟨"web", "web-2", "ip-2"⟩, by simp [duplicated], rfl⟩, rfl⟩

/-- When the final `GetInstance` answers an output through which no public address can
be read (as the SDK does on failure, with an output record whose `Instance` is nil),
`changeIP` panics on `*instanceOutput.Instance.PublicIpAddress` after the attach
instead of returning. -/
theorem changeIP_final_get_fails (svc : Lightsail σ) (instanceName staticIPName : String)
    (w : World σ) (ip1 : String) (probe : Option Error)
    (out : Option GetInstanceOutput) (e : Option Error) (s1 s2 s3 s4 s5 s6 : σ)
    (h1 : svc.GetInstance instanceName w.state
      = ((some ⟨some ⟨some ip1, some false⟩⟩, none), s1))
    (h2 : svc.GetStaticIp staticIPName s1 = (probe, s2))
    (h3 : s3 = if probe = none then
      (svc.ReleaseStaticIp staticIPName (svc.DetachStaticIp staticIPName s2).2).2 else s2)
    (h4 : svc.AllocateStaticIp staticIPName s3 = (none, s4))
    (h5 : svc.AttachStaticIp staticIPName instanceName s4 = (none, s5))
    (h6 : svc.GetInstance instanceName (svc.Sleep 5 s5) = ((out, e), s6))
    (h7 : derefPublicIp out = none) :
    changeIP svc instanceName staticIPName w
      = .panicked
          ⟨s6, w.trace ++ [Call.GetInstance instanceName, Call.GetStaticIp staticIPName]
            ++ (if probe = none then
                  [Call.DetachStaticIp staticIPName, Call.ReleaseStaticIp staticIPName]
                else [])
            ++ [Call.AllocateStaticIp staticIPName,
                Call.AttachStaticIp staticIPName instanceName,
                Call.Sleep 5, Call.GetInstance instanceName]⟩ := by
  subst h3
  cases probe <;>
    simp [changeIP, callGetInstance, callGetStaticIp, callDetachStaticIp,
      callReleaseStaticIp, callAllocateStaticIp, callAttachStaticIp, timeSleep,
      derefIsStaticIp, h1, h2,
      show derefPublicIp (some ⟨some ⟨some ip1, some false⟩⟩) = some ip1 from rfl] at h4 ⊢ <;>
    simp [h4, h5, h6, h7]

/-- C5 (the code departs from the specification): with the first `GetInstance`,
`AllocateStaticIp` and `AttachStaticIp` succeeding and the final `GetInstance` failing,
`changeIP` does not return `("1.1.1.1", "", nil)`: it panics after the final call, and
`changeIPHandler` panics with it. -/
theorem changeIP_final_get_fails_panics :
    changeIP (double finalGetFails) "web-1" "ip-1" ⟨0, []⟩
      = .panicked ⟨2, [Call.GetInstance "web-1", Call.GetStaticIp "ip-1",
               Call.AllocateStaticIp "ip-1", Call.AttachStaticIp "ip-1" "web-1",
               Call.Sleep 5, Call.GetInstance "web-1"]⟩
    ∧ ((double finalGetFails).GetInstance "web-1" 1).1.2 = some "NotFoundException"
    ∧ changeIPHandler ⟨[⟨"web", "web-1", "ip-1"⟩]⟩ (double finalGetFails) "web" ⟨0, []⟩
      = .panicked ⟨2, [Call.GetInstance "web-1", Call.GetStaticIp "ip-1",
               Call.AllocateStaticIp "ip-1", Call.AttachStaticIp "ip-1" "web-1",
               Call.Sleep 5, Call.GetInstance "web-1"]⟩ :=
  ⟨changeIP_final_get_fails (double finalGetFails) "web-1" "ip-1" ⟨0, []⟩ "1.1.1.1"
      (some "NotFoundException") (some ⟨none⟩) (some "NotFoundException") 1 1 1 1 1 2
      rfl rfl rfl rfl rfl rfl rfl, rfl, rfl⟩

/-- C10 as stated fails: a run on an instance without a static IP can return no error
and an empty new IP, namely when the final `GetInstance` reports the empty address. -/
theorem changeIP_new_ip_may_be_empty :
    ¬ ∀ (svc : Lightsail Nat) (instanceName staticIPName : String) (w : World Nat)
        (ip1 : String) (s1 : Nat) (oldIP newIP : String) (w1 : World Nat),
        svc.GetInstance instanceName w.state
          = ((some ⟨some ⟨some ip1, some false⟩⟩, none), s1) →
        changeIP svc instanceName staticIPName w = .returned (oldIP, newIP, none) w1 →
        newIP ≠ "" := by
  intro h
  exact h (double emptyAddress) "web-1" "ip-1" ⟨0, []⟩ "1.1.1.1" 1 "1.1.1.1" ""
    ⟨2, [Call.GetInstance "web-1", Call.GetStaticIp "ip-1",
         Call.AllocateStaticIp "ip-1", Call.AttachStaticIp "ip-1" "web-1",
         Call.Sleep 5, Call.GetInstance "web-1"]⟩ rfl rfl rfl

/-- C10 (amended): on an instance whose first snapshot has `IsStaticIp = false`, a run
of `changeIP` that returns no error returns the first snapshot's address as old IP and,
as new IP, the public address answered by the `GetInstance` issued after the 5 second
sleep; that new IP is non-empty whenever the provider never answers an empty address. -/
theorem changeIP_new_ip_is_reported (svc : Lightsail σ) (instanceName staticIPName : String)
    (w : World σ) (ip1 : String) (s1 : σ) (oldIP newIP : String) (w1 : World σ)
    (h1 : svc.GetInstance instanceName w.state
      = ((some ⟨some ⟨some ip1, some false⟩⟩, none), s1))
    (hret : changeIP svc instanceName staticIPName w = .returned (oldIP, newIP, none) w1) :
    oldIP = ip1
    ∧ (∃ s, derefPublicIp (svc.GetInstance instanceName (svc.Sleep 5 s)).1.1 = some newIP
        ∧ (svc.GetInstance instanceName (svc.Sleep 5 s)).2 = w1.state)
    ∧ (∃ calls, w1.trace = calls ++ [Call.Sleep 5, Call.GetInstance instanceName])
    ∧ ((∀ name s ip, derefPublicIp (svc.GetInstance name s).1.1 = some ip → ip ≠ "") →
        newIP ≠ "") := by
  have key : oldIP = ip1
      ∧ (∃ s, derefPublicIp (svc.GetInstance instanceName (svc.Sleep 5 s)).1.1 = some newIP
        ∧ (svc.GetInstance instanceName (svc.Sleep 5 s)).2 = w1.state)
      ∧ (∃ calls, w1.trace = calls ++ [Call.Sleep 5, Call.GetInstance instanceName]) := by
    simp only [changeIP, callGetInstance, callGetStaticIp, callDetachStaticIp,
      callReleaseStaticIp, callAllocateStaticIp, callAttachStaticIp, timeSleep,
      derefIsStaticIp, h1, Option.bind] at hret
    rw [show derefPublicIp (some ⟨some ⟨some ip1, some false⟩⟩) = some ip1 from rfl] at hret
    simp only [] at hret
    split at hret
    · simp at hret
    · split at hret
      · simp at hret
      · split at hret
        · simp at hret
        · rename_i ip2 hip
          simp only [Outcome.returned.injEq, Prod.mk.injEq] at hret
          obtain ⟨⟨rfl, rfl, -⟩, rfl⟩ := hret
          exact ⟨rfl, ⟨_, hip, rfl⟩, ⟨_, List.append_assoc _ _ _⟩⟩
  obtain ⟨ho, ⟨s, hs, hst⟩, htr⟩ := key
  exact ⟨ho, ⟨s, hs, hst⟩, htr, fun hne => hne _ _ _ hs⟩

/-- C10 (amended) on the double in which every call succeeds. -/
theorem changeIP_new_ip_is_reported_witness :
    "1.1.1.1" = "1.1.1.1"
    ∧ (∃ s, derefPublicIp
          ((double happy).GetInstance "web-1" ((double happy).Sleep 5 s)).1.1 = some "2.2.2.2"
        ∧ ((double happy).GetInstance "web-1" ((double happy).Sleep 5 s)).2 = 2)
    ∧ (∃ calls, [Call.GetInstance "web-1", Call.GetStaticIp "ip-1",
          Call.AllocateStaticIp "ip-1", Call.AttachStaticIp "ip-1" "web-1",
          Call.Sleep 5, Call.GetInstance "web-1"]
        = calls ++ [Call.Sleep 5, Call.GetInstance "web-1"])
    ∧ ((∀ name s ip, derefPublicIp ((double happy).GetInstance name s).1.1 = some ip →
          ip ≠ "") → "2.2.2.2" ≠ "") :=
  changeIP_new_ip_is_reported (double happy) "web-1" "ip-1" ⟨0, []⟩ "1.1.1.1" 1
    "1.1.1.1" "2.2.2.2"
    ⟨2, [Call.GetInstance "web-1", Call.GetStaticIp "ip-1",
         Call.AllocateStaticIp "ip-1", Call.AttachStaticIp "ip-1" "web-1",
         Call.Sleep 5, Call.GetInstance "web-1"]⟩ rfl rfl

end Theorems

end IPSwitcher
